import Mathlib

/-!
# alertmanager-webhook: a shallow embedding of `main.go`

The program is a single Go file: it receives an Alertmanager webhook payload,
formats a title/description pair from it and posts that pair to the GitLab
issues API.

Conventions of the embedding

* Go `string` and `[]byte` values are Lean `String`s.
* A Go `error` is represented by its message; a possibly-nil `error` is an
  `Option String` (`none` is `nil`).
* A Go multi-value return `(T, error)` is a Lean pair `T × Option String`, so that
  the value returned next to a non-nil error stays visible.
* Calls into libraries and the operating system (`ioutil.ReadFile`,
  `yaml.Unmarshal`, `json.Unmarshal`, `json.Marshal`, the URL parsing of
  `http.NewRequest`, `client.Do`, reading a body) are fields of an environment
  record `Env`: the program is verified for every behaviour of those calls.
* A run-time panic and `log.Fatal` are explicit outcomes of the handler.
-/

namespace Webhook

/-! ## Data model (`main.go`, lines 14-50) -/

/-- Settings record, `type Config struct`. The zero value `Config{}` is the default. -/
structure Config where
  Port : String := ""
  SSLEnabled : Bool := false
  SSLKeyFileName : String := ""
  SSLCertFileName : String := ""
  GitlabURL : String := ""
  GitlabAPIPrefix : String := ""
  GitlabAccessToken : String := ""
  GitlabProjectID : String := ""
  deriving DecidableEq, Repr

/-- One alert instance, `type ArrayAlerts struct`. -/
structure ArrayAlerts where
  StartTime : String := ""
  EndTime : String := ""
  GeneratorURL : String := ""
  deriving DecidableEq, Repr

/-- Common annotations, `type Annotations struct`. -/
structure Annotations where
  Description : String := ""
  Summary : String := ""
  deriving DecidableEq, Repr

/-- Common labels, `type Labels struct`. -/
structure Labels where
  AlertName : String := ""
  Namespace : String := ""
  Node : String := ""
  Service : String := ""
  Severity : String := ""
  deriving DecidableEq, Repr

/-- Alert notification, `type Alert struct`. `Info` is the slice of alert instances;
a nil slice and an empty slice are both the empty list. -/
structure Alert where
  Receiver : String := ""
  Status : String := ""
  Info : List ArrayAlerts := []
  CommonAnnotations : Annotations := {}
  CommonLabels : Labels := {}
  deriving DecidableEq, Repr

/-- A Go `map[string]string`, kept as an association list of its entries. -/
abbrev GoMap := List (String × String)

/-- Map indexing `m[key]` with the presence flag: the value stored under `key`, if any. -/
def GoMap.get (m : GoMap) (key : String) : Option String :=
  List.lookup key m

/-! ## The fragment of package `fmt` the program uses -/

/-- Text appended by `fmt` for operands left over after the format is consumed. -/
def extraOperands : List String → List Char
  | [] => []
  | args => "%!(EXTRA ".data ++ (String.intercalate ", " (args.map ("string=" ++ ·))).data ++ [')']

/-- Formatting loop of `fmt.Sprintf` for string operands: the verbs `%s` and `%v`
insert the next operand verbatim, `%%` is a percent sign, a verb without an operand
prints the `MISSING` marker, every other character is copied. -/
def sprintfAux : List Char → List String → List Char
  | [], args => extraOperands args
  | c :: rest, args =>
    if c = '%' then
      match rest with
      | [] => "%!(NOVERB)".data ++ extraOperands args
      | v :: rest' =>
        if v = '%' then '%' :: sprintfAux rest' args
        else
          match args with
          | [] => '%' :: '!' :: v :: "(MISSING)".data ++ sprintfAux rest' []
          | a :: args' =>
            if v = 's' ∨ v = 'v' then a.data ++ sprintfAux rest' args'
            else '%' :: '!' :: v :: "(string=".data ++ a.data ++ ')' :: sprintfAux rest' args'
    else c :: sprintfAux rest args

/-- Go `fmt.Sprintf(format, args...)` on string operands. -/
def Sprintf (format : String) (args : List String) : String :=
  ⟨sprintfAux format.data args⟩

/-- Go `fmt.Errorf(format, args...)`: an error whose message is the formatted text. -/
def Errorf (format : String) (args : List String) : String :=
  Sprintf format args

/-- Go `fmt.Sprint(a)` for one string or error operand: its text. This is what
`log.Print` and `log.Fatal` hand to the logger. -/
def Sprint (a : String) : String :=
  a

/-- Go `fmt.Sprintln(a)` for one operand: the operand followed by a newline. This is
the text `fmt.Fprintln(w, a)` writes to `w`. -/
def Sprintln (a : String) : String :=
  a ++ "\n"

/-! ## Message formatting (`main.go`, lines 136-150) -/

/-- Run-time panics the program can raise. -/
inductive Panic where
  | indexOutOfRange (index length : Nat)
  deriving DecidableEq, Repr

/-- Slice indexing `xs[i]`: panics when `i` is not below the length. -/
def index (xs : List ArrayAlerts) (i : Nat) : Except Panic ArrayAlerts :=
  match xs[i]? with
  | some x => .ok x
  | none => .error (.indexOutOfRange i xs.length)

/-- The function `createMessage` (lines 136-150). The operands of each `Sprintf` are evaluated left
to right, so the first `alert.Info[0]` decides whether the call panics. -/
def createMessage (alert : Alert) : Except Panic GoMap := do
  let title := Sprintf "ALERTMANAGER -> Namespace:%s Node:%s"
    [alert.CommonLabels.Namespace, alert.CommonLabels.Node]
  let i0 ← index alert.Info 0
  let i1 ← index alert.Info 0
  let description := Sprintf "Service: %s\n\n AlertName: %s\n\n Receiver: %s\n\n Status: %s\n\n StartTime: %s\n\n EndTime: %s\n\n"
    [alert.CommonLabels.Service,
     alert.CommonLabels.AlertName,
     alert.Receiver, alert.Status,
     i0.StartTime, i1.EndTime]
  let i2 ← index alert.Info 0
  let description := description ++ Sprintf "generatorURL: %s\n\n Description: %s\n\n Summary: %s\n\n"
    [i2.GeneratorURL,
     alert.CommonAnnotations.Description,
     alert.CommonAnnotations.Summary]
  let body : GoMap := [("title", title), ("description", description)]
  return body

/-! ## Environment: libraries, file system and network -/

/-- An outbound `http.Request`. `URL` is the parsed URL the request carries, written
the way `req.URL.String()` prints it: it is what `url.Parse` made of the string given
to `http.NewRequest`, not that string. `Header` holds the entries in the order they
were added, each under its canonical key. -/
structure Request where
  Method : String
  URL : String
  Header : List (String × String)
  Body : String
  deriving DecidableEq, Repr

/-- Bytes allowed in a header field name (the token characters of HTTP): ASCII
letters and digits and the fifteen marks listed. -/
def validHeaderFieldByte (c : Char) : Bool :=
  c.isAlphanum ||
    ['!', '#', '$', '%', '&', Char.ofNat 39, '*', '+', '-', '.', '^', '_', Char.ofNat 96, '|',
      '~'].contains c

/-- Casing loop of `textproto.CanonicalMIMEHeaderKey`: the first letter and every
letter after a hyphen in upper case, all other letters in lower case. -/
def canonicalCase : Bool → List Char → List Char
  | _, [] => []
  | upper, c :: rest =>
    let c := if upper && c.isLower then c.toUpper
      else if !upper && c.isUpper then c.toLower
      else c
    c :: canonicalCase (c == '-') rest

/-- Go `textproto.CanonicalMIMEHeaderKey(s)`: a key made of valid field bytes is put
in canonical case, any other key is returned unchanged. -/
def CanonicalMIMEHeaderKey (s : String) : String :=
  if s.data.all validHeaderFieldByte then ⟨canonicalCase true s.data⟩ else s

/-- Go `Header.Add(key, value)`: appends the value under the canonical form of the key. -/
def Request.headerAdd (req : Request) (key value : String) : Request :=
  { req with Header := req.Header ++ [(CanonicalMIMEHeaderKey key, value)] }

/-- Go `Header.Values(key)`: the values stored under the canonical form of `key`, in
order. -/
def Request.headerValues (req : Request) (key : String) : List String :=
  (req.Header.filter (fun kv => kv.1 == CanonicalMIMEHeaderKey key)).map Prod.snd

/-- The response of the destination as the handler sees it: the status code and the
result of `ioutil.ReadAll(resp.Body)`. -/
structure Response where
  StatusCode : Nat
  Body : Except String String

/-- The `http.Client` built by the handler: only the TLS verification switch of its
transport is configured. -/
structure Client where
  InsecureSkipVerify : Bool
  deriving DecidableEq, Repr

/-- Everything outside the program that one run depends on. -/
structure Env where
  /-- The call `ioutil.ReadFile(filename)`. -/
  readFile : String → Except String String
  /-- The call `yaml.Unmarshal(data, &config)`: the record after decoding and the error. -/
  yamlUnmarshal : String → Config → Config × Option String
  /-- The call `ioutil.ReadAll(r.Body)` on the inbound request. -/
  requestBody : Except String String
  /-- The call `json.Unmarshal(data, &alert)`: the record after decoding and the error. -/
  jsonUnmarshal : String → Alert → Alert × Option String
  /-- The call `json.Marshal(data)` on a string map. -/
  jsonMarshal : GoMap → Except String String
  /-- The part of `http.NewRequest(method, url, body)` that can fail: the check of the
  method and the call `url.Parse(url)`. The result is the parsed URL, written the way
  its method `String()` prints it, or the error. -/
  parseRequestURL : String → String → Except String String
  /-- The call `client.Do(req)`: a response, or the error of the outbound call. -/
  clientDo : Client → Request → Except String Response

/-- Go `http.NewRequest(method, url, body)`: fails when the method or the URL string
is rejected, otherwise a request that carries the parsed URL and an empty header. -/
def NewRequest (env : Env) (method url body : String) : Except String Request :=
  match env.parseRequestURL method url with
  | .error err => .error err
  | .ok u => .ok { Method := method, URL := u, Header := [], Body := body }

/-! ## Configuration loading and startup (`main.go`, lines 52-78) -/

/-- The function `parseYaml` (lines 67-78). When decoding fails the function returns
the variable `err` of the read, which is nil at that point, not `errYaml`. -/
def parseYaml (env : Env) (filename : String) : Config × Option String :=
  match env.readFile filename with
  | .error err =>
    let config : Config := {}
    (config, some err)
  | .ok yamlConfig =>
    -- here `err` is nil
    let err : Option String := none
    let config : Config := {}
    match env.yamlUnmarshal yamlConfig config with
    | (config, some _errYaml) => (config, err)
    | (config, none) => (config, none)

/-- What `main` ends up doing. -/
inductive Startup where
  /-- Call of `log.Fatal(err)` before any listener is started: the process exits with status 1. -/
  | fatal (err : String)
  /-- Call of `http.ListenAndServe(addr, nil)`. -/
  | listenAndServe (addr : String)
  /-- Call of `http.ListenAndServeTLS(addr, certFile, keyFile, nil)`. -/
  | listenAndServeTLS (addr certFile keyFile : String)
  deriving DecidableEq, Repr

/-- The function `main` (lines 52-65), up to the point where it starts listening; the
start-up log line and the registration of the handler are left out. -/
def main (env : Env) : Startup :=
  match parseYaml env "/app/config/config.yaml" with
  | (_, some err) => .fatal err
  | (config, none) =>
    if config.SSLEnabled then
      .listenAndServeTLS config.Port config.SSLCertFileName config.SSLKeyFileName
    else
      .listenAndServe config.Port

/-! ## The request handler (`main.go`, lines 80-134 and 152-157) -/

/-- Calls made while one request is handled, in the order of the trace. -/
inductive Call where
  | parseYaml (filename : String)
  | readRequestBody
  | parseJson (data : String)
  | createMessage (alert : Alert)
  | jsonMarshal (data : GoMap)
  | newRequest (method url body : String)
  | clientDo (client : Client) (req : Request)
  | readResponseBody
  | writeError (err : String)
  deriving DecidableEq, Repr

/-- Observable state of one handler run: the `http.ResponseWriter` (explicit status
line, if one was written, and body bytes), the log output and the trace of calls. -/
structure State where
  status : Option Nat := none
  body : String := ""
  log : List String := []
  calls : List Call := []
  deriving DecidableEq, Repr

/-- Method `WriteHeader(code)` of the response writer: the first status line wins. -/
def State.WriteHeader (s : State) (code : Nat) : State :=
  match s.status with
  | none => { s with status := some code }
  | some _ => s

/-- Method `Write` of the response writer: an implicit 200 status line precedes the
first body bytes when none was written. -/
def State.Write (s : State) (bytes : String) : State :=
  { s with status := some (s.status.getD 200), body := s.body ++ bytes }

/-- Output of `log.Print`, `log.Printf` and `log.Println`: one log entry. -/
def State.logPrint (s : State) (entry : String) : State :=
  { s with log := s.log ++ [entry] }

/-- Records a call in the trace. -/
def State.call (s : State) (c : Call) : State :=
  { s with calls := s.calls ++ [c] }

/-- How a handler run ends. -/
inductive Outcome where
  /-- The handler returned; the server sends the response held in the state. -/
  | returned
  /-- The process was terminated by `log.Fatal` with the given exit status. -/
  | exited (code : Nat)
  /-- The handler goroutine panicked. -/
  | panicked (p : Panic)
  deriving DecidableEq, Repr

/-- Status code of the HTTP response the inbound caller receives. A handler that
returns without writing a status line yields 200. After a panic the server of
`net/http` recovers, logs the panic and closes the connection, and after a process
exit there is no server left: in both cases no response is sent. -/
def responseStatus : Outcome × State → Option Nat
  | (.returned, s) => some (s.status.getD 200)
  | (.exited _, _) => none
  | (.panicked _, _) => none

/-- Requests handed to `client.Do` in a trace. -/
def outbound : List Call → List Request
  | [] => []
  | .clientDo _ req :: rest => req :: outbound rest
  | _ :: rest => outbound rest

/-- The function `writeError` (lines 152-157). -/
def writeError (w : State) (err : String) : State :=
  let w := w.call (.writeError err)
  let err := Errorf "Error: %v" [err]
  let w := w.WriteHeader 500
  let w := w.Write (Sprintln err)
  w.logPrint (Sprintln err)

/-- The function `parseJson` (lines 127-134). -/
def parseJson (env : Env) (data : String) : Alert × Option String :=
  let alert : Alert := {}
  match env.jsonUnmarshal data alert with
  | (alert, some err) => (alert, some err)
  | (alert, none) => (alert, none)

/-- The function `sendAlert` (lines 80-125), started in state `w`. The deferred
`resp.Body.Close()` has no effect on the state and is left out. -/
def sendAlert (env : Env) (w : State) : Outcome × State :=
  let w := w.call (.parseYaml "/app/config/config.yaml")
  match parseYaml env "/app/config/config.yaml" with
  | (_, some err) => (.exited 1, w.logPrint (Sprint err))
  | (config, none) =>
  let w := w.call .readRequestBody
  match env.requestBody with
  | .error err => (.returned, writeError w err)
  | .ok b =>
  let w := w.logPrint (Sprintf "Receiving: %s\n" [b])
  let w := w.call (.parseJson b)
  match parseJson env b with
  | (_, some errJson) => (.returned, writeError w errJson)
  | (alert, none) =>
  let w := w.call (.createMessage alert)
  match createMessage alert with
  | .error p => (.panicked p, w)
  | .ok data =>
  let w := w.call (.jsonMarshal data)
  match env.jsonMarshal data with
  | .error errEnc => (.returned, writeError w errEnc)
  | .ok body =>
  let URL := config.GitlabURL ++ config.GitlabAPIPrefix ++ config.GitlabProjectID ++ "/issues"
  let w := w.call (.newRequest "POST" URL body)
  match NewRequest env "POST" URL body with
  | .error errReq => (.returned, writeError w errReq)
  | .ok req =>
  let req := req.headerAdd "Content-Type" "application/json"
  let req := req.headerAdd "PRIVATE-TOKEN" config.GitlabAccessToken
  let client : Client := { InsecureSkipVerify := true }
  let w := w.call (.clientDo client req)
  match env.clientDo client req with
  | .error errResp => (.returned, writeError w errResp)
  | .ok resp =>
  let w := w.call .readResponseBody
  match resp.Body with
  | .error errStat => (.returned, writeError w errStat)
  | .ok status =>
  (.returned, w.logPrint (Sprintf "Response from git:%s \n" [status]))

/-! ## Concrete inputs -/

/-- The example payload of the specification, decoded. -/
def specExampleAlert : Alert where
  Receiver := "r"
  Status := "firing"
  Info := [{ StartTime := "t1", EndTime := "t2", GeneratorURL := "u" }]
  CommonAnnotations := { Description := "d", Summary := "s" }
  CommonLabels :=
    { AlertName := "a", Namespace := "ns", Node := "n", Service := "svc", Severity := "crit" }

/-- A payload with an empty namespace label and a node label padded with blanks. -/
def blankLabelsAlert : Alert where
  Receiver := "team"
  Status := "resolved"
  Info := [{ StartTime := "t1", EndTime := "t2", GeneratorURL := "u" }]
  CommonLabels := { Namespace := "", Node := " n " }

/-- A payload that agrees with `specExampleAlert` on every field the formatter reads,
with another severity and two further alert instances. -/
def specExampleVariant : Alert where
  Receiver := "r"
  Status := "firing"
  Info :=
    [{ StartTime := "t1", EndTime := "t2", GeneratorURL := "u" },
     { StartTime := "t3", EndTime := "t4", GeneratorURL := "v" },
     { StartTime := "t5", EndTime := "t6", GeneratorURL := "w" }]
  CommonAnnotations := { Description := "d", Summary := "s" }
  CommonLabels :=
    { AlertName := "a", Namespace := "ns", Node := "n", Service := "svc", Severity := "info" }

/-- Settings used in the examples. -/
def exampleConfig : Config where
  Port := ":9090"
  GitlabURL := "https://gitlab.example.com"
  GitlabAPIPrefix := "/api/v4/projects/"
  GitlabAccessToken := "glpat-secret"
  GitlabProjectID := "42"

/-- The JSON text `json.Marshal` produces for the message of `specExampleAlert`. -/
def specExampleIssue : String :=
  "\x7b\"description\":\"Service: svc\\n\\n AlertName: a\\n\\n Receiver: r\\n\\n Status: firing\\n\\n StartTime: t1\\n\\n EndTime: t2\\n\\ngeneratorURL: u\\n\\n Description: d\\n\\n Summary: s\\n\\n\",\"title\":\"ALERTMANAGER -\\u003e Namespace:ns Node:n\"\x7d"

/-- The message `createMessage` builds for `specExampleAlert`. -/
def specExampleMessage : GoMap :=
  [("title", "ALERTMANAGER -> Namespace:ns Node:n"),
   ("description", "Service: svc\n\n AlertName: a\n\n Receiver: r\n\n Status: firing\n\n StartTime: t1\n\n EndTime: t2\n\ngeneratorURL: u\n\n Description: d\n\n Summary: s\n\n")]

/-- The request body of the example of the specification. -/
def specExampleBody : String :=
  "\x7b\"receiver\":\"r\",\"status\":\"firing\",\"alerts\":[\x7b\"startsAt\":\"t1\",\"endsAt\":\"t2\",\"generatorURL\":\"u\"\x7d],\"commonAnnotations\":\x7b\"description\":\"d\",\"summary\":\"s\"\x7d,\"commonLabels\":\x7b\"alertname\":\"a\",\"namespace\":\"ns\",\"node\":\"n\",\"service\":\"svc\",\"severity\":\"crit\"\x7d\x7d"

/-- A run in which every outside call succeeds: the configuration file decodes to
`exampleConfig`, the request body decodes to `specExampleAlert`, and the destination
answers 404 with a readable body. -/
def exampleEnv : Env where
  readFile := fun _ => .ok "port: \":9090\"\ngitlabURL: https://gitlab.example.com\ngitlabAPIPrefix: /api/v4/projects/\ngitlabAccessToken: glpat-secret\ngitlabProjectID: \"42\"\n"
  yamlUnmarshal := fun _ _ => (exampleConfig, none)
  requestBody := .ok specExampleBody
  jsonUnmarshal := fun _ _ => (specExampleAlert, none)
  jsonMarshal := fun _ => .ok specExampleIssue
  parseRequestURL := fun _ _ => .ok "https://gitlab.example.com/api/v4/projects/42/issues"
  clientDo := fun _ _ =>
    .ok { StatusCode := 404, Body := .ok "\x7b\"message\":\"404 Project Not Found\"\x7d" }

/-- As `exampleEnv`, with the request body `{"alerts":[]}`: it decodes without error
and leaves every field but `Info` at its zero value. -/
def emptyAlertsEnv : Env :=
  { exampleEnv with
    requestBody := .ok "\x7b\"alerts\":[]\x7d"
    jsonUnmarshal := fun _ alert => ({ alert with Info := [] }, none) }

/-- As `exampleEnv`, with a truncated request body that `json.Unmarshal` rejects. -/
def truncatedBodyEnv : Env :=
  { exampleEnv with
    requestBody := .ok "\x7b\"receiver\":"
    jsonUnmarshal := fun _ alert => (alert, some "unexpected end of JSON input") }

/-- As `exampleEnv`, with no configuration file. -/
def missingConfigEnv : Env :=
  { exampleEnv with
    readFile := fun _ => .error "open /app/config/config.yaml: no such file or directory" }

/-- As `exampleEnv`, with a configuration file that is read but is not valid YAML:
decoding fails and leaves the record untouched. -/
def malformedConfigEnv : Env :=
  { exampleEnv with
    readFile := fun _ => .ok "port: ["
    yamlUnmarshal := fun _ config => (config, some "yaml: line 1: did not find expected node content") }

/-- Settings that name the destination by address and port, without a scheme. -/
def hostPortConfig : Config where
  Port := ":9090"
  GitlabURL := "10.0.0.5:8443"
  GitlabAPIPrefix := "/api/v4/projects/"
  GitlabAccessToken := "glpat-secret"
  GitlabProjectID := "42"

/-- As `exampleEnv`, with the Settings `hostPortConfig`: `url.Parse` rejects the
concatenated string, whose first path segment holds a colon. -/
def rejectedURLEnv : Env :=
  { exampleEnv with
    yamlUnmarshal := fun _ _ => (hostPortConfig, none)
    parseRequestURL := fun _ _ =>
      .error "parse \"10.0.0.5:8443/api/v4/projects/42/issues\": first path segment in URL cannot contain colon" }

/-- Settings with a blank in the API path and a query and fragment in the project
identifier. -/
def spacedConfig : Config where
  Port := ":9090"
  GitlabURL := "http://127.0.0.1:18080"
  GitlabAPIPrefix := "/api v4/"
  GitlabAccessToken := "glpat-secret"
  GitlabProjectID := "a/b?x=1#f"

/-- As `exampleEnv`, with the Settings `spacedConfig`: `url.Parse` accepts the
concatenated string; the parsed URL has path `/api v4/a/b`, query `x=1` and fragment
`f/issues`, and prints with the blank percent-encoded. The fragment is not part of
what is sent to the destination. -/
def encodedURLEnv : Env :=
  { exampleEnv with
    yamlUnmarshal := fun _ _ => (spacedConfig, none)
    parseRequestURL := fun _ _ => .ok "http://127.0.0.1:18080/api%20v4/a/b?x=1#f/issues" }

/-! ## Formatting lemmas -/

theorem Sprintf_title (ns node : String) :
    Sprintf "ALERTMANAGER -> Namespace:%s Node:%s" [ns, node]
      = "ALERTMANAGER -> Namespace:" ++ ns ++ " Node:" ++ node := by
  apply String.ext
  simp [Sprintf, sprintfAux, extraOperands]

theorem Sprintf_description_head (service alertname receiver status startsAt endsAt : String) :
    Sprintf "Service: %s\n\n AlertName: %s\n\n Receiver: %s\n\n Status: %s\n\n StartTime: %s\n\n EndTime: %s\n\n"
        [service, alertname, receiver, status, startsAt, endsAt]
      = "Service: " ++ service ++ "\n\n AlertName: " ++ alertname ++ "\n\n Receiver: "
          ++ receiver ++ "\n\n Status: " ++ status ++ "\n\n StartTime: " ++ startsAt
          ++ "\n\n EndTime: " ++ endsAt ++ "\n\n" := by
  apply String.ext
  simp [Sprintf, sprintfAux, extraOperands]

theorem Sprintf_description_tail (generatorURL description summary : String) :
    Sprintf "generatorURL: %s\n\n Description: %s\n\n Summary: %s\n\n"
        [generatorURL, description, summary]
      = "generatorURL: " ++ generatorURL ++ "\n\n Description: " ++ description
          ++ "\n\n Summary: " ++ summary ++ "\n\n" := by
  apply String.ext
  simp [Sprintf, sprintfAux, extraOperands]

theorem Sprintf_error (err : String) : Sprintf "Error: %v" [err] = "Error: " ++ err := by
  apply String.ext
  simp [Sprintf, sprintfAux, extraOperands]

theorem Sprintf_receiving (b : String) :
    Sprintf "Receiving: %s\n" [b] = "Receiving: " ++ b ++ "\n" := by
  apply String.ext
  simp [Sprintf, sprintfAux, extraOperands]

theorem Sprintf_response (status : String) :
    Sprintf "Response from git:%s \n" [status] = "Response from git:" ++ status ++ " \n" := by
  apply String.ext
  simp [Sprintf, sprintfAux, extraOperands]

theorem index_zero_cons (x : ArrayAlerts) (xs : List ArrayAlerts) :
    index (x :: xs) 0 = .ok x := by
  simp [index]

theorem index_zero_nil : index [] 0 = .error (.indexOutOfRange 0 0) := by
  simp [index]

/-- The map `createMessage` builds when the first alert instance is `x`. -/
theorem createMessage_cons (alert : Alert) (x : ArrayAlerts) (xs : List ArrayAlerts)
    (h : alert.Info = x :: xs) :
    createMessage alert = .ok
      [("title", "ALERTMANAGER -> Namespace:" ++ alert.CommonLabels.Namespace ++ " Node:"
          ++ alert.CommonLabels.Node),
       ("description", "Service: " ++ alert.CommonLabels.Service ++ "\n\n AlertName: "
          ++ alert.CommonLabels.AlertName ++ "\n\n Receiver: " ++ alert.Receiver
          ++ "\n\n Status: " ++ alert.Status ++ "\n\n StartTime: " ++ x.StartTime
          ++ "\n\n EndTime: " ++ x.EndTime ++ "\n\n" ++ "generatorURL: " ++ x.GeneratorURL
          ++ "\n\n Description: " ++ alert.CommonAnnotations.Description ++ "\n\n Summary: "
          ++ alert.CommonAnnotations.Summary ++ "\n\n")] := by
  simp only [createMessage, h, index_zero_cons, Sprintf_title, Sprintf_description_head,
    Sprintf_description_tail, bind, Except.bind, pure, Except.pure, String.append_assoc]

/-- With no alert instance `createMessage` panics on `alert.Info[0]`. -/
theorem createMessage_nil (alert : Alert) (h : alert.Info = []) :
    createMessage alert = .error (.indexOutOfRange 0 0) := by
  simp only [createMessage, h, index_zero_nil, bind, Except.bind]

/-! ## Claims about message formatting -/

/-- C1: for an alert notification with a non-empty instance sequence, `createMessage`
returns a map whose entry under the key "title" is exactly
"ALERTMANAGER -> Namespace:" ++ namespace ++ " Node:" ++ node, the two labels being
inserted verbatim. -/
theorem createMessage_title (alert : Alert) (h : alert.Info ≠ []) :
    ∃ m : GoMap, createMessage alert = .ok m ∧
      m.get "title" = some ("ALERTMANAGER -> Namespace:" ++ alert.CommonLabels.Namespace
        ++ " Node:" ++ alert.CommonLabels.Node) := by
  obtain ⟨x, xs, hx⟩ := List.exists_cons_of_ne_nil h
  exact ⟨_, createMessage_cons alert x xs hx, by simp [GoMap.get, List.lookup]⟩

/-- Witness of C1: an empty namespace and a node padded with blanks pass through
unchanged. -/
theorem createMessage_title_witness :
    blankLabelsAlert.Info ≠ [] ∧
    ∃ m : GoMap, createMessage blankLabelsAlert = .ok m ∧
      m.get "title" = some "ALERTMANAGER -> Namespace: Node: n " :=
  ⟨by decide, createMessage_title blankLabelsAlert (by decide)⟩

/-- C2: for an alert notification with a non-empty instance sequence, `createMessage`
returns a map whose entry under the key "description" is exactly the nine fields in
the order Service, AlertName, Receiver, Status, StartTime, EndTime, generatorURL,
Description, Summary, each with its fixed label and separator, where the start time,
end time and generator URL are those of the first alert instance. -/
theorem createMessage_description (alert : Alert) (first : ArrayAlerts)
    (h : alert.Info.head? = some first) :
    ∃ m : GoMap, createMessage alert = .ok m ∧
      m.get "description" = some ("Service: " ++ alert.CommonLabels.Service
        ++ "\n\n AlertName: " ++ alert.CommonLabels.AlertName
        ++ "\n\n Receiver: " ++ alert.Receiver
        ++ "\n\n Status: " ++ alert.Status
        ++ "\n\n StartTime: " ++ first.StartTime
        ++ "\n\n EndTime: " ++ first.EndTime ++ "\n\n"
        ++ "generatorURL: " ++ first.GeneratorURL
        ++ "\n\n Description: " ++ alert.CommonAnnotations.Description
        ++ "\n\n Summary: " ++ alert.CommonAnnotations.Summary ++ "\n\n") := by
  obtain ⟨xs, hx⟩ : ∃ xs, alert.Info = first :: xs := by
    cases hinfo : alert.Info with
    | nil => simp [hinfo] at h
    | cons y ys => simp [hinfo] at h; exact ⟨ys, by rw [h]⟩
  exact ⟨_, createMessage_cons alert first xs hx, by simp [GoMap.get, List.lookup]⟩

/-- Witness of C2: the example of the specification (svc, a, r, firing, t1, t2, u, d, s). -/
theorem createMessage_description_witness :
    specExampleAlert.Info.head?
        = some { StartTime := "t1", EndTime := "t2", GeneratorURL := "u" } ∧
    ∃ m : GoMap, createMessage specExampleAlert = .ok m ∧
      m.get "description" = some "Service: svc\n\n AlertName: a\n\n Receiver: r\n\n Status: firing\n\n StartTime: t1\n\n EndTime: t2\n\ngeneratorURL: u\n\n Description: d\n\n Summary: s\n\n" :=
  ⟨by decide, createMessage_description specExampleAlert
    { StartTime := "t1", EndTime := "t2", GeneratorURL := "u" } (by decide)⟩

/-- C10: two alert notifications with non-empty instance sequences that agree on
receiver, status, first alert instance, common annotations and the alertname,
namespace, node and service labels are formatted to the same map, whatever their
severity labels and their further alert instances; and that map is returned, not a
panic. -/
theorem createMessage_noninterference (a b : Alert)
    (ha : a.Info ≠ []) (hb : b.Info ≠ [])
    (hfirst : a.Info.head? = b.Info.head?)
    (hreceiver : a.Receiver = b.Receiver) (hstatus : a.Status = b.Status)
    (hannotations : a.CommonAnnotations = b.CommonAnnotations)
    (halertname : a.CommonLabels.AlertName = b.CommonLabels.AlertName)
    (hnamespace : a.CommonLabels.Namespace = b.CommonLabels.Namespace)
    (hnode : a.CommonLabels.Node = b.CommonLabels.Node)
    (hservice : a.CommonLabels.Service = b.CommonLabels.Service) :
    createMessage a = createMessage b ∧ ∃ m : GoMap, createMessage a = .ok m := by
  obtain ⟨x, xs, hx⟩ := List.exists_cons_of_ne_nil ha
  obtain ⟨y, ys, hy⟩ := List.exists_cons_of_ne_nil hb
  have hxy : x = y := by simpa [hx, hy] using hfirst
  subst hxy
  refine ⟨?_, _, createMessage_cons a x xs hx⟩
  rw [createMessage_cons a x xs hx, createMessage_cons b x ys hy, hreceiver, hstatus,
    hannotations, halertname, hnamespace, hnode, hservice]

/-- Witness of C10: the example of the specification and a variant of it with
severity "info" and three alert instances instead of one. -/
theorem createMessage_noninterference_witness :
    specExampleAlert.CommonLabels.Severity ≠ specExampleVariant.CommonLabels.Severity ∧
    specExampleAlert.Info.length ≠ specExampleVariant.Info.length ∧
    createMessage specExampleAlert = createMessage specExampleVariant ∧
    ∃ m : GoMap, createMessage specExampleAlert = .ok m :=
  ⟨by decide, by decide,
    createMessage_noninterference specExampleAlert specExampleVariant (by decide) (by decide)
      (by decide) (by decide) (by decide) (by decide) (by decide) (by decide) (by decide)
      (by decide)⟩

/-! ## Claims about error reporting -/

/-- C9 as the specification states it fails: for the error "boom" the body written by
`writeError` is not "Error: boom", because `fmt.Fprintln` ends it with a newline. -/
theorem writeError_body_counterexample :
    (writeError {} "boom").status = some 500 ∧
    (writeError {} "boom").body ≠ "Error: boom" ∧
    (writeError {} "boom").body = "Error: boom\n" := by
  decide

/-- C9, amended: for every error `err`, `writeError` on a response writer nothing was
written to sets the status to 500 and writes a body that is exactly
"Error: " ++ message ++ "\n": the message with its prefix, followed by one newline. -/
theorem writeError_response (log : List String) (calls : List Call) (err : String) :
    (writeError { log := log, calls := calls } err).status = some 500 ∧
    (writeError { log := log, calls := calls } err).body = "Error: " ++ err ++ "\n" := by
  simp [writeError, Errorf, Sprintf_error, Sprintln, State.call, State.WriteHeader, State.Write,
    State.logPrint]

/-! ## Claims about configuration loading -/

/-- C8 fails on the code: when the configuration file is read and YAML decoding fails
with `errYaml`, `parseYaml` returns the nil `err` of the read instead, so it reports
no error, and `main` goes on to listen with the record decoding left behind. -/
theorem parseYaml_decoding_error_dropped (env : Env) (yamlConfig errYaml : String)
    (config : Config)
    (hread : env.readFile "/app/config/config.yaml" = .ok yamlConfig)
    (hyaml : env.yamlUnmarshal yamlConfig {} = (config, some errYaml)) :
    parseYaml env "/app/config/config.yaml" = (config, none) ∧
    main env = (if config.SSLEnabled then
        .listenAndServeTLS config.Port config.SSLCertFileName config.SSLKeyFileName
      else .listenAndServe config.Port) := by
  have hp : parseYaml env "/app/config/config.yaml" = (config, none) := by
    simp [parseYaml, hread, hyaml]
  exact ⟨hp, by simp [main, hp]⟩

/-- The failing input of C8: a readable configuration file holding `port: [`. The
process starts listening on the empty address of the zero `Config`. -/
theorem parseYaml_decoding_error_dropped_witness :
    malformedConfigEnv.readFile "/app/config/config.yaml" = .ok "port: [" ∧
    malformedConfigEnv.yamlUnmarshal "port: [" {}
      = ({}, some "yaml: line 1: did not find expected node content") ∧
    parseYaml malformedConfigEnv "/app/config/config.yaml" = ({}, none) ∧
    main malformedConfigEnv = .listenAndServe "" :=
  ⟨rfl, rfl,
    parseYaml_decoding_error_dropped malformedConfigEnv "port: ["
      "yaml: line 1: did not find expected node content" {} rfl rfl⟩

/-! ## Claims about the request handler -/

/-- C7 as the specification states it fails: with no configuration file the handler
writes no 500 response; `log.Fatal` terminates the process with exit status 1 and the
caller receives no response. -/
theorem sendAlert_settings_failure_counterexample :
    (parseYaml missingConfigEnv "/app/config/config.yaml").2
      = some "open /app/config/config.yaml: no such file or directory" ∧
    (sendAlert missingConfigEnv {}).1 = .exited 1 ∧
    (sendAlert missingConfigEnv {}).2.status ≠ some 500 ∧
    (sendAlert missingConfigEnv {}).2.body = "" ∧
    responseStatus (sendAlert missingConfigEnv {}) = none := by
  decide

/-- C7, amended: for every inbound request, if reading Settings fails inside
`sendAlert` (`parseYaml` returns a non-nil error), the handler logs the error and
terminates the process with exit status 1: no later stage runs, nothing is written to
the response writer and the caller receives no response. -/
theorem sendAlert_settings_failure (env : Env) (err : String)
    (hcfg : (parseYaml env "/app/config/config.yaml").2 = some err) :
    sendAlert env {} = (.exited 1,
      { status := none, body := "", log := [err],
        calls := [.parseYaml "/app/config/config.yaml"] }) ∧
    responseStatus (sendAlert env {}) = none := by
  rcases hp : parseYaml env "/app/config/config.yaml" with ⟨config, e⟩
  rw [hp] at hcfg
  simp only at hcfg
  subst hcfg
  have hs : sendAlert env {} = (.exited 1,
      { status := none, body := "", log := [err],
        calls := [.parseYaml "/app/config/config.yaml"] }) := by
    simp [sendAlert, hp, State.call, State.logPrint, Sprint]
  exact ⟨hs, by rw [hs]; rfl⟩

/-- Witness of the amended C7: the run with no configuration file. -/
theorem sendAlert_settings_failure_witness :
    (parseYaml missingConfigEnv "/app/config/config.yaml").2
      = some "open /app/config/config.yaml: no such file or directory" ∧
    sendAlert missingConfigEnv {} = (.exited 1,
      { status := none, body := "",
        log := ["open /app/config/config.yaml: no such file or directory"],
        calls := [.parseYaml "/app/config/config.yaml"] }) ∧
    responseStatus (sendAlert missingConfigEnv {}) = none :=
  ⟨rfl, sendAlert_settings_failure missingConfigEnv
    "open /app/config/config.yaml: no such file or directory" rfl⟩

/-- C4: when Settings load and the body is read, an error `errJson` from `parseJson`
makes `sendAlert` return after writing status 500 and the body
"Error: " ++ errJson ++ "\n"; `createMessage` is not called and no outbound request is
sent. -/
theorem sendAlert_decode_error (env : Env) (b errJson : String)
    (hcfg : (parseYaml env "/app/config/config.yaml").2 = none)
    (hbody : env.requestBody = .ok b)
    (hjson : (parseJson env b).2 = some errJson) :
    (sendAlert env {}).1 = .returned ∧
    (sendAlert env {}).2.status = some 500 ∧
    (sendAlert env {}).2.body = "Error: " ++ errJson ++ "\n" ∧
    responseStatus (sendAlert env {}) = some 500 ∧
    (∀ alert, Call.createMessage alert ∉ (sendAlert env {}).2.calls) ∧
    outbound (sendAlert env {}).2.calls = [] := by
  rcases hp : parseYaml env "/app/config/config.yaml" with ⟨config, e⟩
  rw [hp] at hcfg
  simp only at hcfg
  subst hcfg
  rcases hj : parseJson env b with ⟨alert, e⟩
  rw [hj] at hjson
  simp only at hjson
  subst hjson
  have hs : sendAlert env {} = (.returned,
      { status := some 500, body := "Error: " ++ errJson ++ "\n",
        log := ["Receiving: " ++ b ++ "\n", "Error: " ++ errJson ++ "\n"],
        calls := [.parseYaml "/app/config/config.yaml", .readRequestBody, .parseJson b,
          .writeError errJson] }) := by
    simp [sendAlert, hp, hbody, hj, Sprintf_receiving, writeError, Errorf, Sprintf_error, Sprintln,
      State.call, State.WriteHeader, State.Write, State.logPrint]
  rw [hs]
  simp [responseStatus, outbound]

/-- Witness of C4: a truncated JSON body. -/
theorem sendAlert_decode_error_witness :
    (parseYaml truncatedBodyEnv "/app/config/config.yaml").2 = none ∧
    truncatedBodyEnv.requestBody = .ok "\x7b\"receiver\":" ∧
    (parseJson truncatedBodyEnv "\x7b\"receiver\":").2 = some "unexpected end of JSON input" ∧
    (sendAlert truncatedBodyEnv {}).1 = .returned ∧
    (sendAlert truncatedBodyEnv {}).2.status = some 500 ∧
    (sendAlert truncatedBodyEnv {}).2.body = "Error: unexpected end of JSON input\n" ∧
    responseStatus (sendAlert truncatedBodyEnv {}) = some 500 ∧
    (∀ alert, Call.createMessage alert ∉ (sendAlert truncatedBodyEnv {}).2.calls) ∧
    outbound (sendAlert truncatedBodyEnv {}).2.calls = [] :=
  ⟨rfl, rfl, rfl, sendAlert_decode_error truncatedBodyEnv "\x7b\"receiver\":"
    "unexpected end of JSON input" rfl rfl rfl⟩

/-- C3 fails on the code: when the body decodes without error to a notification with
an empty instance sequence, `sendAlert` calls `createMessage`, which panics on
`alert.Info[0]`; `writeError` is never called, no 500 is written and the caller
receives no response. -/
theorem sendAlert_empty_alerts_panics (env : Env) (b : String) (alert : Alert)
    (hcfg : (parseYaml env "/app/config/config.yaml").2 = none)
    (hbody : env.requestBody = .ok b)
    (hjson : parseJson env b = (alert, none))
    (hinfo : alert.Info = []) :
    (sendAlert env {}).1 = .panicked (.indexOutOfRange 0 0) ∧
    (sendAlert env {}).2.status = none ∧
    responseStatus (sendAlert env {}) = none ∧
    (sendAlert env {}).2.calls = [.parseYaml "/app/config/config.yaml", .readRequestBody,
      .parseJson b, .createMessage alert] := by
  rcases hp : parseYaml env "/app/config/config.yaml" with ⟨config, e⟩
  rw [hp] at hcfg
  simp only at hcfg
  subst hcfg
  have hs : sendAlert env {} = (.panicked (.indexOutOfRange 0 0),
      { status := none, body := "", log := ["Receiving: " ++ b ++ "\n"],
        calls := [.parseYaml "/app/config/config.yaml", .readRequestBody, .parseJson b,
          .createMessage alert] }) := by
    simp [sendAlert, hp, hbody, hjson, createMessage_nil alert hinfo, Sprintf_receiving,
      State.call, State.logPrint]
  rw [hs]
  simp [responseStatus]

/-- The failing input of C3: the request body `{"alerts":[]}`. -/
theorem sendAlert_empty_alerts_panics_witness :
    (parseYaml emptyAlertsEnv "/app/config/config.yaml").2 = none ∧
    emptyAlertsEnv.requestBody = .ok "\x7b\"alerts\":[]\x7d" ∧
    parseJson emptyAlertsEnv "\x7b\"alerts\":[]\x7d" = ({}, none) ∧
    (sendAlert emptyAlertsEnv {}).1 = .panicked (.indexOutOfRange 0 0) ∧
    (sendAlert emptyAlertsEnv {}).2.status = none ∧
    responseStatus (sendAlert emptyAlertsEnv {}) = none ∧
    (sendAlert emptyAlertsEnv {}).2.calls = [.parseYaml "/app/config/config.yaml",
      .readRequestBody, .parseJson "\x7b\"alerts\":[]\x7d", .createMessage {}] :=
  ⟨rfl, rfl, rfl, sendAlert_empty_alerts_panics emptyAlertsEnv "\x7b\"alerts\":[]\x7d" {}
    rfl rfl rfl rfl⟩

theorem CanonicalMIMEHeaderKey_contentType :
    CanonicalMIMEHeaderKey "Content-Type" = "Content-Type" := by
  decide

theorem CanonicalMIMEHeaderKey_privateToken :
    CanonicalMIMEHeaderKey "PRIVATE-TOKEN" = "Private-Token" := by
  decide

/-- Status and body left by `writeError` on a response writer nothing was written to. -/
theorem writeError_fresh (log : List String) (calls : List Call) (err : String) :
    writeError { log := log, calls := calls } err =
      { status := some 500, body := "Error: " ++ err ++ "\n",
        log := log ++ ["Error: " ++ err ++ "\n"],
        calls := calls ++ [.writeError err] } := by
  simp [writeError, Errorf, Sprintf_error, Sprintln, State.call, State.WriteHeader, State.Write,
    State.logPrint]

/-- Final state of the handler once the message has been encoded to `body`: it
depends on `http.NewRequest`, on `client.Do` and on the read of the response body. -/
theorem sendAlert_request (env : Env) (config : Config) (b body : String) (alert : Alert)
    (data : GoMap)
    (hcfg : parseYaml env "/app/config/config.yaml" = (config, none))
    (hbody : env.requestBody = .ok b)
    (hjson : parseJson env b = (alert, none))
    (hdata : createMessage alert = .ok data)
    (hmarshal : env.jsonMarshal data = .ok body) :
    sendAlert env {} =
      (match env.parseRequestURL "POST"
          (config.GitlabURL ++ config.GitlabAPIPrefix ++ config.GitlabProjectID ++ "/issues") with
       | .error errReq => (.returned, writeError
          { log := ["Receiving: " ++ b ++ "\n"],
            calls := [.parseYaml "/app/config/config.yaml", .readRequestBody, .parseJson b,
              .createMessage alert, .jsonMarshal data,
              .newRequest "POST" (config.GitlabURL ++ config.GitlabAPIPrefix
                ++ config.GitlabProjectID ++ "/issues") body] } errReq)
       | .ok u =>
         match env.clientDo { InsecureSkipVerify := true }
            { Method := "POST", URL := u,
              Header := [("Content-Type", "application/json"),
                ("Private-Token", config.GitlabAccessToken)],
              Body := body } with
         | .error errResp => (.returned, writeError
            { log := ["Receiving: " ++ b ++ "\n"],
              calls := [.parseYaml "/app/config/config.yaml", .readRequestBody, .parseJson b,
                .createMessage alert, .jsonMarshal data,
                .newRequest "POST" (config.GitlabURL ++ config.GitlabAPIPrefix
                  ++ config.GitlabProjectID ++ "/issues") body,
                .clientDo { InsecureSkipVerify := true }
                  { Method := "POST", URL := u,
                    Header := [("Content-Type", "application/json"),
                      ("Private-Token", config.GitlabAccessToken)],
                    Body := body }] } errResp)
         | .ok resp =>
           match resp.Body with
           | .error errStat => (.returned, writeError
              { log := ["Receiving: " ++ b ++ "\n"],
                calls := [.parseYaml "/app/config/config.yaml", .readRequestBody, .parseJson b,
                  .createMessage alert, .jsonMarshal data,
                  .newRequest "POST" (config.GitlabURL ++ config.GitlabAPIPrefix
                    ++ config.GitlabProjectID ++ "/issues") body,
                  .clientDo { InsecureSkipVerify := true }
                    { Method := "POST", URL := u,
                      Header := [("Content-Type", "application/json"),
                        ("Private-Token", config.GitlabAccessToken)],
                      Body := body },
                  .readResponseBody] } errStat)
           | .ok status => (.returned,
              { log := ["Receiving: " ++ b ++ "\n", "Response from git:" ++ status ++ " \n"],
                calls := [.parseYaml "/app/config/config.yaml", .readRequestBody, .parseJson b,
                  .createMessage alert, .jsonMarshal data,
                  .newRequest "POST" (config.GitlabURL ++ config.GitlabAPIPrefix
                    ++ config.GitlabProjectID ++ "/issues") body,
                  .clientDo { InsecureSkipVerify := true }
                    { Method := "POST", URL := u,
                      Header := [("Content-Type", "application/json"),
                        ("Private-Token", config.GitlabAccessToken)],
                      Body := body },
                  .readResponseBody] })) := by
  simp only [sendAlert, hcfg, hbody, hjson, hdata, hmarshal, NewRequest,
    Request.headerAdd, CanonicalMIMEHeaderKey_contentType, CanonicalMIMEHeaderKey_privateToken,
    Sprintf_receiving, Sprintf_response, State.call, State.logPrint,
    List.nil_append, List.cons_append, List.append_assoc]
  cases env.parseRequestURL "POST"
      (config.GitlabURL ++ config.GitlabAPIPrefix ++ config.GitlabProjectID ++ "/issues") with
  | error e => rfl
  | ok u => rfl

/-- C5 as the specification states it fails on two counts. With the Settings
`hostPortConfig` the alert decodes, its instance sequence is non-empty and its message
is encoded, yet `http.NewRequest` rejects the concatenated string: no outbound request
is built and the handler answers 500. With the Settings `spacedConfig` one request is
sent, and the URL it carries is not the concatenated string: the blank is
percent-encoded. -/
theorem sendAlert_outbound_request_counterexample :
    (parseYaml rejectedURLEnv "/app/config/config.yaml" = (hostPortConfig, none) ∧
      parseJson rejectedURLEnv specExampleBody = (specExampleAlert, none) ∧
      specExampleAlert.Info ≠ [] ∧
      outbound (sendAlert rejectedURLEnv {}).2.calls = [] ∧
      (sendAlert rejectedURLEnv {}).2.status = some 500) ∧
    (parseYaml encodedURLEnv "/app/config/config.yaml" = (spacedConfig, none) ∧
      parseJson encodedURLEnv specExampleBody = (specExampleAlert, none) ∧
      (outbound (sendAlert encodedURLEnv {}).2.calls).map Request.URL
        = ["http://127.0.0.1:18080/api%20v4/a/b?x=1#f/issues"] ∧
      spacedConfig.GitlabURL ++ spacedConfig.GitlabAPIPrefix ++ spacedConfig.GitlabProjectID
          ++ "/issues" = "http://127.0.0.1:18080/api v4/a/b?x=1#f/issues" ∧
      (outbound (sendAlert encodedURLEnv {}).2.calls).map Request.URL
        ≠ [spacedConfig.GitlabURL ++ spacedConfig.GitlabAPIPrefix
            ++ spacedConfig.GitlabProjectID ++ "/issues"]) := by
  decide

/-- C5, amended: when Settings load to `config` and the body decodes to a notification
with a non-empty instance sequence whose message `json.Marshal` encodes to `body`,
`sendAlert` calls `http.NewRequest` with the method POST and the string
GitlabURL ++ GitlabAPIPrefix ++ GitlabProjectID ++ "/issues", a plain concatenation. If
that call fails with `errReq`, no outbound request is sent and the handler writes 500
with the body "Error: " ++ errReq ++ "\n". If it succeeds, exactly one request is
handed to `client.Do`: its method is POST, its URL is the URL `u` that `url.Parse`
made of the string, its header holds Content-Type: application/json and
PRIVATE-TOKEN: GitlabAccessToken and nothing else, and its body is `body`. -/
theorem sendAlert_outbound_request (env : Env) (config : Config) (b body : String)
    (alert : Alert) (data : GoMap)
    (hcfg : parseYaml env "/app/config/config.yaml" = (config, none))
    (hbody : env.requestBody = .ok b)
    (hjson : parseJson env b = (alert, none))
    (_hinfo : alert.Info ≠ [])
    (hdata : createMessage alert = .ok data)
    (hmarshal : env.jsonMarshal data = .ok body) :
    Call.newRequest "POST"
        (config.GitlabURL ++ config.GitlabAPIPrefix ++ config.GitlabProjectID ++ "/issues") body
      ∈ (sendAlert env {}).2.calls ∧
    (∀ errReq : String,
      env.parseRequestURL "POST"
          (config.GitlabURL ++ config.GitlabAPIPrefix ++ config.GitlabProjectID ++ "/issues")
        = .error errReq →
      outbound (sendAlert env {}).2.calls = [] ∧
      (sendAlert env {}).2.status = some 500 ∧
      (sendAlert env {}).2.body = "Error: " ++ errReq ++ "\n") ∧
    (∀ u : String,
      env.parseRequestURL "POST"
          (config.GitlabURL ++ config.GitlabAPIPrefix ++ config.GitlabProjectID ++ "/issues")
        = .ok u →
      ∃ req : Request, outbound (sendAlert env {}).2.calls = [req] ∧
        req.Method = "POST" ∧
        req.URL = u ∧
        req.headerValues "Content-Type" = ["application/json"] ∧
        req.headerValues "PRIVATE-TOKEN" = [config.GitlabAccessToken] ∧
        req.Header.length = 2 ∧
        req.Body = body) := by
  rw [sendAlert_request env config b body alert data hcfg hbody hjson hdata hmarshal]
  cases hparse : env.parseRequestURL "POST"
      (config.GitlabURL ++ config.GitlabAPIPrefix ++ config.GitlabProjectID ++ "/issues") with
  | error e => simp [writeError_fresh, outbound]
  | ok u =>
    have hct : Request.headerValues
        { Method := "POST", URL := u,
          Header := [("Content-Type", "application/json"),
            ("Private-Token", config.GitlabAccessToken)],
          Body := body } "Content-Type" = ["application/json"] := by
      simp [Request.headerValues, CanonicalMIMEHeaderKey_contentType]
    have hpt : Request.headerValues
        { Method := "POST", URL := u,
          Header := [("Content-Type", "application/json"),
            ("Private-Token", config.GitlabAccessToken)],
          Body := body } "PRIVATE-TOKEN" = [config.GitlabAccessToken] := by
      simp [Request.headerValues, CanonicalMIMEHeaderKey_privateToken]
    simp only []
    split
    · simp [writeError_fresh, outbound, hct, hpt]
    · split
      · simp [writeError_fresh, outbound, hct, hpt]
      · simp [outbound, hct, hpt]

/-- Witness of the amended C5: the example of the specification with `exampleConfig`,
where the request is sent, and with `hostPortConfig`, where the string is rejected. -/
theorem sendAlert_outbound_request_witness :
    (parseYaml exampleEnv "/app/config/config.yaml" = (exampleConfig, none) ∧
      exampleEnv.requestBody = .ok specExampleBody ∧
      parseJson exampleEnv specExampleBody = (specExampleAlert, none) ∧
      specExampleAlert.Info ≠ [] ∧
      createMessage specExampleAlert = .ok specExampleMessage ∧
      exampleEnv.jsonMarshal specExampleMessage = .ok specExampleIssue ∧
      Call.newRequest "POST" "https://gitlab.example.com/api/v4/projects/42/issues"
          specExampleIssue ∈ (sendAlert exampleEnv {}).2.calls ∧
      ∃ req : Request, outbound (sendAlert exampleEnv {}).2.calls = [req] ∧
        req.Method = "POST" ∧
        req.URL = "https://gitlab.example.com/api/v4/projects/42/issues" ∧
        req.headerValues "Content-Type" = ["application/json"] ∧
        req.headerValues "PRIVATE-TOKEN" = ["glpat-secret"] ∧
        req.Header.length = 2 ∧
        req.Body = specExampleIssue) ∧
    (parseYaml rejectedURLEnv "/app/config/config.yaml" = (hostPortConfig, none) ∧
      outbound (sendAlert rejectedURLEnv {}).2.calls = [] ∧
      (sendAlert rejectedURLEnv {}).2.status = some 500 ∧
      (sendAlert rejectedURLEnv {}).2.body = "Error: parse \"10.0.0.5:8443/api/v4/projects/42/issues\": first path segment in URL cannot contain colon\n") :=
  ⟨⟨rfl, rfl, rfl, by decide, rfl, rfl,
      (sendAlert_outbound_request exampleEnv exampleConfig specExampleBody specExampleIssue
        specExampleAlert specExampleMessage rfl rfl rfl (by decide) rfl rfl).1,
      (sendAlert_outbound_request exampleEnv exampleConfig specExampleBody specExampleIssue
        specExampleAlert specExampleMessage rfl rfl rfl (by decide) rfl rfl).2.2
        "https://gitlab.example.com/api/v4/projects/42/issues" rfl⟩,
    rfl,
    (sendAlert_outbound_request rejectedURLEnv hostPortConfig specExampleBody specExampleIssue
      specExampleAlert specExampleMessage rfl rfl rfl (by decide) rfl rfl).2.1
      "parse \"10.0.0.5:8443/api/v4/projects/42/issues\": first path segment in URL cannot contain colon"
      rfl⟩

end Webhook
